import Mathlib

/-!
A shallow embedding of the `hbd-sql` repository's `HBDRepo` facade
(`src/index.ts`, PostgreSQL dialect, and `dist/hbd-repo.js`, mssql dialect).

The TypeScript class is a process-wide singleton holding a lazily created
connection pool and a fixed catalog of parameterized SQL queries.  We model:

* JS `null`/`undefined` values of object type as `Option`;
* the driver (`pg.Pool` construction and `pool.query`) as an oracle giving
  the outcome of the n-th connect attempt and the n-th execute;
* thrown errors as `Except`;
* the mutable instance fields (`pool`, `poolConfig`) as an explicit
  `RepoState` threaded through operations, and driver-visible effects
  (pool constructions, connect attempts, executed calls) as a `World` record.

SQL result rows are association lists from column names to SQL values.
-/

/-- A SQL value as surfaced by the driver: NULL, a numeric, or a text value. -/
inductive SqlValue where
  | vNull
  | vNum (n : ℚ)
  | vStr (s : String)
deriving DecidableEq, Repr

/-- A result row: a flat mapping from column name to value. -/
def Row : Type := List (String × SqlValue)

instance : DecidableEq Row := by
  unfold Row
  infer_instance

instance : Membership (String × SqlValue) Row := by
  unfold Row
  infer_instance

/-- Look up a column of a row (JS property access; `none` is `undefined`). -/
def lookupCol (r : Row) (c : String) : Option SqlValue :=
  (r.find? (fun p => p.1 == c)).map Prod.snd

/-- JS truthiness of a SQL value (`null`, `0`, and `""` are falsy). -/
def jsTruthy : SqlValue → Bool
  | SqlValue.vNull => false
  | SqlValue.vNum n => n ≠ 0
  | SqlValue.vStr s => s ≠ ""

/-- The `pg.PoolConfig` object: every connection field is optional in the
driver's type, so each is an `Option` here. -/
structure PoolConfig where
  user : Option String := none
  password : Option String := none
  database : Option String := none
  host : Option String := none
  port : Option Nat := none
deriving DecidableEq, Repr

/-- Modelled from the spec: the "required connection fields" of §6 and of
`interfaces.ts` (`DatabaseConfig` declares `user`, `password`, `database`,
`host` as required).  The source constructor performs no such field check;
this predicate exists to state the spec's validity condition. -/
def PoolConfig.hasRequiredConnectionFields (c : PoolConfig) : Bool :=
  c.user.isSome && c.password.isSome && c.database.isSome && c.host.isSome

/-- The error thrown by the private constructor when the config is absent
(`'PostgreSQL configuration is required to initialize Database.'`). -/
inductive ConfigError where
  | configurationError
deriving DecidableEq, Repr

/-- The instance fields of `HBDRepo`: `poolConfig` (set by the constructor)
and `pool` (initially `null`).  A created pool is identified by its creation
index. -/
structure RepoState where
  poolConfig : PoolConfig
  pool : Option Nat := none
deriving DecidableEq, Repr

/-- The private constructor `HBDRepo(poolConfig)`:
throws when `poolConfig` is falsy (absent), otherwise stores it;
`pool` starts out `null`. -/
def HBDRepo.construct (poolConfig : Option PoolConfig) : Except ConfigError RepoState :=
  match poolConfig with
  | none => Except.error ConfigError.configurationError
  | some c => Except.ok { poolConfig := c, pool := none }

/-- `HBDRepo.getInstance(poolConfig)`: given the current static `instance`
field, returns the updated static field together with the call's outcome.
If no instance exists one is constructed (a thrown constructor error leaves
the static field unset); otherwise the existing instance is returned and the
passed config is ignored. -/
def HBDRepo.getInstance (g : Option RepoState) (cfg : Option PoolConfig) :
    Option RepoState × Except ConfigError RepoState :=
  match g with
  | some inst => (some inst, Except.ok inst)
  | none =>
      match HBDRepo.construct cfg with
      | Except.error e => (none, Except.error e)
      | Except.ok inst => (some inst, Except.ok inst)

/-- Run a sequence of `getInstance` calls, threading the static `instance`
field; returns the list of call outcomes and the final static field. -/
def runGetInstances (g : Option RepoState) :
    List (Option PoolConfig) → List (Except ConfigError RepoState) × Option RepoState
  | [] => ([], g)
  | cfg :: rest =>
      let step := HBDRepo.getInstance g cfg
      let tail := runGetInstances step.1 rest
      (step.2 :: tail.1, tail.2)

/-- The driver oracle: the outcome of the n-th pool construction attempt
(`new Pool(config)`, counting from 0; `none` = success) and of the n-th
`pool.query` execution (`Except.error` = the driver throwing `ε`). -/
structure Oracle (ε : Type) where
  connectErr : Nat → Option ε
  execRes : Nat → Except ε (List Row)

/-- Driver-visible effects of a run: how many connect attempts were made,
how many pools were successfully constructed, how many executes happened,
and the exact `(queryString, params)` calls handed to `pool.query`. -/
structure World where
  connects : Nat := 0
  pools : Nat := 0
  execs : Nat := 0
  calls : List (String × List SqlValue) := []
deriving DecidableEq, Repr

/-- The initial world: nothing has been asked of the driver. -/
def World.init : World := {}

/-- Errors escaping a domain operation: either the driver error rethrown by
`connect` (`throw err`, preserving the driver detail `ε`), or the generic
`new Error('Failed to execute query.')` thrown by `query`'s catch block,
which discards the driver detail. -/
inductive OpError (ε : Type) where
  | connectionError (e : ε)
  | queryExecutionError
deriving DecidableEq, Repr

/-- `HBDRepo.connect()`: when no pool exists, construct one from the stored
config (`new Pool(this.poolConfig)`); a throwing construction is rethrown
unchanged (`throw err`) and leaves `this.pool` unset.  When a pool already
exists it is returned as is and the driver is not consulted. -/
def HBDRepo.connect (o : Oracle ε) (w : World) (s : RepoState) :
    World × RepoState × Except ε Nat :=
  match s.pool with
  | some p => (w, s, Except.ok p)
  | none =>
      match o.connectErr w.connects with
      | some e => ({ w with connects := w.connects + 1 }, s, Except.error e)
      | none =>
          let pid := w.pools
          ({ w with connects := w.connects + 1, pools := w.pools + 1 },
           { s with pool := some pid },
           Except.ok pid)

/-- `HBDRepo.query(queryString, params)`: if `this.pool` is unset, `connect`
first — note that this `await this.connect()` sits OUTSIDE the try/catch,
so a connect failure propagates as the rethrown driver error, not as the
generic query error.  Then execute on the pool inside try/catch: any
driver throw is replaced by the generic `'Failed to execute query.'`
error; a successful result's `rows` are returned exactly as produced. -/
def HBDRepo.query (o : Oracle ε) (w : World) (s : RepoState)
    (queryString : String) (params : List SqlValue) :
    World × RepoState × Except (OpError ε) (List Row) :=
  let conn :=
    match s.pool with
    | some _ => (w, s, Except.ok ())
    | none =>
        let c := HBDRepo.connect o w s
        (c.1, c.2.1, c.2.2.map (fun _ => ()))
  match conn.2.2 with
  | Except.error e => (conn.1, conn.2.1, Except.error (OpError.connectionError e))
  | Except.ok _ =>
      let w' := conn.1
      let s' := conn.2.1
      let res := o.execRes w'.execs
      let w'' := { w' with execs := w'.execs + 1,
                           calls := w'.calls ++ [(queryString, params)] }
      match res with
      | Except.ok rows => (w'', s', Except.ok rows)
      | Except.error _ => (w'', s', Except.error OpError.queryExecutionError)

/-- The `deposits` query template of `src/index.ts` (verbatim; `\x27` is the
single-quote character). -/
def depositsQueryString : String :=
  "\n          SELECT *, hafsql.get_timestamp(id) AS timestamp\n        FROM hafsql.operation_transfer_to_savings_table\n        WHERE (from_account = $1 or  to_account = $1 ) AND symbol = \x27HBD\x27 \n         ORDER BY timestamp ASC;\n    "

/-- The `withdrawals` query template of `src/index.ts` (verbatim). -/
def withdrawalsQueryString : String :=
  "\n         SELECT * , hafsql.get_timestamp(id) AS timestamp\n          FROM hafsql.operation_fill_transfer_from_savings_table\n          WHERE from_account = $1\n          AND symbol = \x27HBD\x27 ORDER BY timestamp ASC;\n\n    "

/-- The `totalDeposit` query template of `src/index.ts` (verbatim). -/
def totalDepositQueryString : String :=
  "\n      SELECT SUM(amount) as total_amount\n      FROM hafsql.operation_transfer_to_savings_table\n      WHERE (from_account = $1 or  to_account = $1 ) AND symbol = \x27HBD\x27 \n    "

/-- The `totalWithdrawal` query template of `src/index.ts` (verbatim). -/
def totalWithdrawalQueryString : String :=
  "\n     SELECT SUM(amount) AS total_amount\n      FROM hafsql.operation_fill_transfer_from_savings_table\n      WHERE from_account = $1\n        AND symbol= \x27HBD\x27\n    "

/-- The `totalInterest` query template of `src/index.ts` (verbatim). -/
def totalInterestQueryString : String :=
  "\n       SELECT SUM(interest) AS total_interest\n        FROM hafsql.operation_interest_table\n        WHERE owner = $1;\n    "

/-- The `interestRate` query template of `src/index.ts` (verbatim). -/
def interestRateQueryString : String :=
  "\n      SELECT  ROUND((CAST(hbd_interest_rate AS numeric) / 100),2) AS hbd_interest \n      FROM hafsql.dynamic_global_properties\n      ORDER BY timestamp DESC\n      LIMIT 1;\n    "

/-- The `savingsDetails` query template of `src/index.ts` (verbatim,
including its inline SQL comments). -/
def savingsDetailsQueryString : String :=
  "\n            WITH \n            last_payment AS (\n                SELECT hafsql.get_timestamp(id) AS last_payment_timestamp\n                FROM hafsql.operation_interest_table \n                WHERE owner = $1 \n                ORDER BY last_payment_timestamp DESC \n                LIMIT 1\n            ),\n            interest_rate AS (\n                SELECT ROUND(CAST(hbd_interest_rate AS numeric) / 100, 2) AS hbd_interest\n                FROM hafsql.dynamic_global_properties\n                ORDER BY timestamp DESC \n                LIMIT 1\n            )\n\n            SELECT \n                hbd,\n                hbd_savings,\n                -- Calculate the number of days since the last payment date\n                EXTRACT(DAY FROM (NOW() - (SELECT last_payment_timestamp FROM last_payment))) AS last_payment_days,\n\n                -- Calculating the estimated interest\n                ROUND(((hbd_savings * \n                        (SELECT hbd_interest FROM interest_rate) \n                        / 12.0) / 30.0) * \n                      EXTRACT(DAY FROM (NOW() - (SELECT last_payment_timestamp FROM last_payment))) \n                      / 100, 2) AS estimated_interest\n            FROM hafsql.balances\n            WHERE account_name = $1;\n    "

/-- The `interestPayments` query template of `src/index.ts` (verbatim). -/
def interestPaymentsQueryString : String :=
  "\n      SELECT *, hafsql.get_timestamp(id) AS timestamp FROM hafsql.operation_interest_table\n      where owner = $1;\n    "

/-- `result[0]?.col || 0`: take the named column of the first row; an absent
row, absent column, or JS-falsy value (NULL, 0, empty string) gives the
number 0, otherwise the value itself. -/
def scalarOrZero (rows : List Row) (col : String) : SqlValue :=
  match rows.head? with
  | none => SqlValue.vNum 0
  | some r =>
      match lookupCol r col with
      | none => SqlValue.vNum 0
      | some v => if jsTruthy v then v else SqlValue.vNum 0

/-- `result[0] || {}`: the first row, or the empty mapping when no row
exists (a JS object is always truthy). -/
def firstRowOrEmpty (rows : List Row) : Row := rows.headD []

/-- `HBDRepo.deposits(username)`: run the fixed deposits template with the
username as the single bind parameter; return the row list as produced. -/
def HBDRepo.deposits (o : Oracle ε) (w : World) (s : RepoState) (username : String) :
    World × RepoState × Except (OpError ε) (List Row) :=
  HBDRepo.query o w s depositsQueryString [SqlValue.vStr username]

/-- `HBDRepo.withdrawals(username)`. -/
def HBDRepo.withdrawals (o : Oracle ε) (w : World) (s : RepoState) (username : String) :
    World × RepoState × Except (OpError ε) (List Row) :=
  HBDRepo.query o w s withdrawalsQueryString [SqlValue.vStr username]

/-- `HBDRepo.totalDeposit(username)`: `result[0]?.total_amount || 0`. -/
def HBDRepo.totalDeposit (o : Oracle ε) (w : World) (s : RepoState) (username : String) :
    World × RepoState × Except (OpError ε) SqlValue :=
  let q := HBDRepo.query o w s totalDepositQueryString [SqlValue.vStr username]
  (q.1, q.2.1, q.2.2.map (fun rows => scalarOrZero rows "total_amount"))

/-- `HBDRepo.totalWithdrawal(username)`: `result[0]?.total_amount || 0`. -/
def HBDRepo.totalWithdrawal (o : Oracle ε) (w : World) (s : RepoState) (username : String) :
    World × RepoState × Except (OpError ε) SqlValue :=
  let q := HBDRepo.query o w s totalWithdrawalQueryString [SqlValue.vStr username]
  (q.1, q.2.1, q.2.2.map (fun rows => scalarOrZero rows "total_amount"))

/-- `HBDRepo.totalInterest(username)`: `result[0]?.total_interest || 0`. -/
def HBDRepo.totalInterest (o : Oracle ε) (w : World) (s : RepoState) (username : String) :
    World × RepoState × Except (OpError ε) SqlValue :=
  let q := HBDRepo.query o w s totalInterestQueryString [SqlValue.vStr username]
  (q.1, q.2.1, q.2.2.map (fun rows => scalarOrZero rows "total_interest"))

/-- `HBDRepo.interestRate()`: no bind parameters (the source passes
`params` as `undefined`, i.e. no values are bound);
`result[0]?.hbd_interest || 0`. -/
def HBDRepo.interestRate (o : Oracle ε) (w : World) (s : RepoState) :
    World × RepoState × Except (OpError ε) SqlValue :=
  let q := HBDRepo.query o w s interestRateQueryString []
  (q.1, q.2.1, q.2.2.map (fun rows => scalarOrZero rows "hbd_interest"))

/-- `HBDRepo.savingsDetails(username)`: `result[0] || {}`. -/
def HBDRepo.savingsDetails (o : Oracle ε) (w : World) (s : RepoState) (username : String) :
    World × RepoState × Except (OpError ε) Row :=
  let q := HBDRepo.query o w s savingsDetailsQueryString [SqlValue.vStr username]
  (q.1, q.2.1, q.2.2.map firstRowOrEmpty)

/-- `HBDRepo.interestPayments(username)`. -/
def HBDRepo.interestPayments (o : Oracle ε) (w : World) (s : RepoState) (username : String) :
    World × RepoState × Except (OpError ε) (List Row) :=
  HBDRepo.query o w s interestPaymentsQueryString [SqlValue.vStr username]

/-- A domain operation of the facade's fixed catalog, with its account
argument where the operation takes one. -/
inductive DomainOp where
  | deposits (u : String)
  | withdrawals (u : String)
  | totalDeposit (u : String)
  | totalWithdrawal (u : String)
  | totalInterest (u : String)
  | interestRate
  | savingsDetails (u : String)
  | interestPayments (u : String)
deriving DecidableEq, Repr

/-- Run one domain operation for its effect on the instance and the driver
(the shaped result is dropped). -/
def stepOp (o : Oracle ε) (w : World) (s : RepoState) : DomainOp → World × RepoState
  | DomainOp.deposits u => let t := HBDRepo.deposits o w s u; (t.1, t.2.1)
  | DomainOp.withdrawals u => let t := HBDRepo.withdrawals o w s u; (t.1, t.2.1)
  | DomainOp.totalDeposit u => let t := HBDRepo.totalDeposit o w s u; (t.1, t.2.1)
  | DomainOp.totalWithdrawal u => let t := HBDRepo.totalWithdrawal o w s u; (t.1, t.2.1)
  | DomainOp.totalInterest u => let t := HBDRepo.totalInterest o w s u; (t.1, t.2.1)
  | DomainOp.interestRate => let t := HBDRepo.interestRate o w s; (t.1, t.2.1)
  | DomainOp.savingsDetails u => let t := HBDRepo.savingsDetails o w s u; (t.1, t.2.1)
  | DomainOp.interestPayments u => let t := HBDRepo.interestPayments o w s u; (t.1, t.2.1)

/-- Run a sequence of domain operations on a single instance. -/
def runOps (o : Oracle ε) : World → RepoState → List DomainOp → World × RepoState
  | w, s, [] => (w, s)
  | w, s, op :: rest =>
      let t := stepOp o w s op
      runOps o t.1 t.2 rest

/-- A driver whose pool construction always succeeds (the spec's mock
driver that merely counts construction calls). -/
def alwaysConnect (ef : Nat → Except ε (List Row)) : Oracle ε :=
  { connectErr := fun _ => none, execRes := ef }

/-- The sort key used by `ORDER BY timestamp ASC`: the numeric value of the
row's `timestamp` column (0 when absent or non-numeric). -/
def tsKey (r : Row) : ℚ :=
  match lookupCol r "timestamp" with
  | some (SqlValue.vNum n) => n
  | _ => 0

/-- Insert a row into a timestamp-sorted list. -/
def insertByTs (r : Row) : List Row → List Row
  | [] => [r]
  | x :: xs => if tsKey r ≤ tsKey x then r :: x :: xs else x :: insertByTs r xs

/-- Stable-enough model of `ORDER BY timestamp ASC` (insertion sort). -/
def sortByTs : List Row → List Row
  | [] => []
  | x :: xs => insertByTs x (sortByTs xs)

/-- The WHERE clause of the pg `deposits` template:
`(from_account = $1 or to_account = $1) AND symbol = 'HBD'`. -/
def pgDepositsWhere (u : String) (r : Row) : Bool :=
  (lookupCol r "from_account" == some (SqlValue.vStr u) ||
   lookupCol r "to_account" == some (SqlValue.vStr u)) &&
  lookupCol r "symbol" == some (SqlValue.vStr "HBD")

/-- Relational semantics of the pg `deposits` query over a concrete
`operation_transfer_to_savings_table`: filter by the WHERE clause, order by
timestamp.  `SELECT *` keeps every column (the added
`hafsql.get_timestamp(id) AS timestamp` column is modelled by rows already
carrying their `timestamp` column). -/
def pgDepositsExec (table : List Row) (u : String) : List Row :=
  sortByTs (table.filter (pgDepositsWhere u))

/-- The WHERE clause of the mssql-dialect `deposits` query of
`dist/hbd-repo.js`: `([from] = @param1 OR [to] = @param1) AND
[type] = 'transfer_to_savings'` — it contains no currency-symbol
condition. -/
def mssqlDepositsWhere (u : String) (r : Row) : Bool :=
  (lookupCol r "from" == some (SqlValue.vStr u) ||
   lookupCol r "to" == some (SqlValue.vStr u)) &&
  lookupCol r "type" == some (SqlValue.vStr "transfer_to_savings")

/-- The projected columns of the mssql-dialect `deposits` query:
`SELECT tx_id, [type], [from], [to], [amount], [timestamp]`. -/
def mssqlDepositsCols : List String :=
  ["tx_id", "type", "from", "to", "amount", "timestamp"]

/-- Project a row onto the named columns (columns absent from the row are
dropped). -/
def projectRow (cols : List String) (r : Row) : Row :=
  cols.filterMap (fun c => (lookupCol r c).map (fun v => (c, v)))

/-- Relational semantics of the mssql-dialect `deposits` query of
`dist/hbd-repo.js` over a concrete `TxTransfers` table. -/
def mssqlDepositsExec (table : List Row) (u : String) : List Row :=
  sortByTs ((table.filter (mssqlDepositsWhere u)).map (projectRow mssqlDepositsCols))

/-- A concrete valid configuration (the one the repository's test suite
uses). -/
def pcA : PoolConfig :=
  { user := some "hafsql_public", password := some "hafsql_public",
    database := some "haf_block_log", host := some "hafsql-sql.mahdiyari.info",
    port := some 5432 }

/-- A second, different concrete configuration. -/
def pcB : PoolConfig :=
  { user := some "other", password := some "pw",
    database := some "db2", host := some "otherhost", port := some 5433 }

/-- A present (non-null) configuration object with every required
connection field missing. -/
def invalidConfig : PoolConfig := {}

/-- A `TxTransfers` row for a savings transfer of 5 HIVE (not HBD) from
alice to bob. -/
def hiveTransferRow : Row :=
  [("tx_id", SqlValue.vNum 1), ("type", SqlValue.vStr "transfer_to_savings"),
   ("from", SqlValue.vStr "alice"), ("to", SqlValue.vStr "bob"),
   ("amount", SqlValue.vNum 5), ("amount_symbol", SqlValue.vStr "HIVE"),
   ("timestamp", SqlValue.vNum 100)]

/-- What the mssql-dialect `deposits` query returns for `hiveTransferRow`:
the projected columns, which include no symbol column at all. -/
def mssqlOutRow : Row :=
  [("tx_id", SqlValue.vNum 1), ("type", SqlValue.vStr "transfer_to_savings"),
   ("from", SqlValue.vStr "alice"), ("to", SqlValue.vStr "bob"),
   ("amount", SqlValue.vNum 5), ("timestamp", SqlValue.vNum 100)]

/-- A pg `operation_transfer_to_savings_table` fixture holding one HBD row
and one non-HBD row for alice. -/
def pgFixture : List Row :=
  [[("from_account", SqlValue.vStr "alice"), ("to_account", SqlValue.vStr "bob"),
    ("amount", SqlValue.vNum 10), ("symbol", SqlValue.vStr "HBD"),
    ("timestamp", SqlValue.vNum 2)],
   [("from_account", SqlValue.vStr "alice"), ("to_account", SqlValue.vStr "bob"),
    ("amount", SqlValue.vNum 7), ("symbol", SqlValue.vStr "HIVE"),
    ("timestamp", SqlValue.vNum 1)]]

theorem runGetInstances_some (r : RepoState) (l : List (Option PoolConfig)) :
    runGetInstances (some r) l = (l.map (fun _ => Except.ok r), some r) := by
  induction l with
  | nil => rfl
  | cons x xs ih => simp [runGetInstances, HBDRepo.getInstance, ih]

theorem scalarOrZero_nil (col : String) : scalarOrZero [] col = SqlValue.vNum 0 := rfl

theorem scalarOrZero_cons (r : Row) (rest : List Row) (col : String) :
    scalarOrZero (r :: rest) col =
      (match lookupCol r col with
       | none => SqlValue.vNum 0
       | some v => if jsTruthy v then v else SqlValue.vNum 0) := rfl

theorem scalarOrZero_of_null (rows : List Row) (col : String)
    (h : (rows.head?.bind (fun r => lookupCol r col)).getD SqlValue.vNull = SqlValue.vNull) :
    scalarOrZero rows col = SqlValue.vNum 0 := by
  cases rows with
  | nil => rfl
  | cons r rest =>
      simp only [List.head?_cons, Option.some_bind] at h
      rw [scalarOrZero_cons]
      cases hcol : lookupCol r col with
      | none => rfl
      | some v =>
          rw [hcol] at h
          simp only [Option.getD_some] at h
          subst h
          rfl

theorem query_pool_some_ok {ε : Type} (o : Oracle ε) (w : World) (s : RepoState)
    (p : Nat) (q : String) (ps : List SqlValue) (rows : List Row)
    (hp : s.pool = some p) (he : o.execRes w.execs = Except.ok rows) :
    HBDRepo.query o w s q ps =
      ({ w with execs := w.execs + 1, calls := w.calls ++ [(q, ps)] }, s,
       Except.ok rows) := by
  unfold HBDRepo.query
  rw [hp]
  simp [he]

theorem query_pool_some_err {ε : Type} (o : Oracle ε) (w : World) (s : RepoState)
    (p : Nat) (q : String) (ps : List SqlValue) (e : ε)
    (hp : s.pool = some p) (he : o.execRes w.execs = Except.error e) :
    HBDRepo.query o w s q ps =
      ({ w with execs := w.execs + 1, calls := w.calls ++ [(q, ps)] }, s,
       Except.error OpError.queryExecutionError) := by
  unfold HBDRepo.query
  rw [hp]
  simp [he]

theorem query_pool_none_ok_ok {ε : Type} (o : Oracle ε) (w : World) (s : RepoState)
    (q : String) (ps : List SqlValue) (rows : List Row)
    (hp : s.pool = none) (hc : o.connectErr w.connects = none)
    (he : o.execRes w.execs = Except.ok rows) :
    HBDRepo.query o w s q ps =
      ({ w with connects := w.connects + 1, pools := w.pools + 1,
                execs := w.execs + 1, calls := w.calls ++ [(q, ps)] },
       { s with pool := some w.pools },
       Except.ok rows) := by
  unfold HBDRepo.query HBDRepo.connect
  rw [hp]
  simp [hc, he, Except.map]

theorem query_pool_none_ok_err {ε : Type} (o : Oracle ε) (w : World) (s : RepoState)
    (q : String) (ps : List SqlValue) (e : ε)
    (hp : s.pool = none) (hc : o.connectErr w.connects = none)
    (he : o.execRes w.execs = Except.error e) :
    HBDRepo.query o w s q ps =
      ({ w with connects := w.connects + 1, pools := w.pools + 1,
                execs := w.execs + 1, calls := w.calls ++ [(q, ps)] },
       { s with pool := some w.pools },
       Except.error OpError.queryExecutionError) := by
  unfold HBDRepo.query HBDRepo.connect
  rw [hp]
  simp [hc, he, Except.map]

theorem query_conn_fail {ε : Type} (o : Oracle ε) (w : World) (s : RepoState)
    (q : String) (ps : List SqlValue) (e : ε)
    (hp : s.pool = none) (hc : o.connectErr w.connects = some e) :
    HBDRepo.query o w s q ps =
      ({ w with connects := w.connects + 1 }, s,
       Except.error (OpError.connectionError e)) := by
  unfold HBDRepo.query HBDRepo.connect
  rw [hp]
  simp [hc, Except.map]

theorem query_state_pool_some {ε : Type} (o : Oracle ε) (w : World) (s : RepoState)
    (p : Nat) (q : String) (ps : List SqlValue) (hp : s.pool = some p) :
    (HBDRepo.query o w s q ps).2.1 = s ∧
    (HBDRepo.query o w s q ps).1.connects = w.connects ∧
    (HBDRepo.query o w s q ps).1.pools = w.pools := by
  cases he : o.execRes w.execs with
  | error e => rw [query_pool_some_err o w s p q ps e hp he]; exact ⟨rfl, rfl, rfl⟩
  | ok rows => rw [query_pool_some_ok o w s p q ps rows hp he]; exact ⟨rfl, rfl, rfl⟩

theorem query_state_pool_none_ok {ε : Type} (o : Oracle ε) (w : World) (s : RepoState)
    (q : String) (ps : List SqlValue)
    (hp : s.pool = none) (hc : o.connectErr w.connects = none) :
    (HBDRepo.query o w s q ps).2.1 = { s with pool := some w.pools } ∧
    (HBDRepo.query o w s q ps).1.connects = w.connects + 1 ∧
    (HBDRepo.query o w s q ps).1.pools = w.pools + 1 := by
  cases he : o.execRes w.execs with
  | error e => rw [query_pool_none_ok_err o w s q ps e hp hc he]; exact ⟨rfl, rfl, rfl⟩
  | ok rows => rw [query_pool_none_ok_ok o w s q ps rows hp hc he]; exact ⟨rfl, rfl, rfl⟩

theorem stepOp_pool_some {ε : Type} (o : Oracle ε) (w : World) (s : RepoState)
    (p : Nat) (hp : s.pool = some p) (op : DomainOp) :
    (stepOp o w s op).2 = s ∧ (stepOp o w s op).1.connects = w.connects ∧
    (stepOp o w s op).1.pools = w.pools := by
  cases op <;>
    (simp only [stepOp, HBDRepo.deposits, HBDRepo.withdrawals, HBDRepo.totalDeposit,
       HBDRepo.totalWithdrawal, HBDRepo.totalInterest, HBDRepo.interestRate,
       HBDRepo.savingsDetails, HBDRepo.interestPayments];
     exact query_state_pool_some o w s p _ _ hp)

theorem stepOp_pool_none_ok {ε : Type} (o : Oracle ε) (w : World) (s : RepoState)
    (hp : s.pool = none) (hc : o.connectErr w.connects = none) (op : DomainOp) :
    (stepOp o w s op).2 = { s with pool := some w.pools } ∧
    (stepOp o w s op).1.connects = w.connects + 1 ∧
    (stepOp o w s op).1.pools = w.pools + 1 := by
  cases op <;>
    (simp only [stepOp, HBDRepo.deposits, HBDRepo.withdrawals, HBDRepo.totalDeposit,
       HBDRepo.totalWithdrawal, HBDRepo.totalInterest, HBDRepo.interestRate,
       HBDRepo.savingsDetails, HBDRepo.interestPayments];
     exact query_state_pool_none_ok o w s _ _ hp hc)

theorem stepOp_conn_fail {ε : Type} (o : Oracle ε) (w : World) (s : RepoState) (e : ε)
    (hp : s.pool = none) (hc : o.connectErr w.connects = some e) (op : DomainOp) :
    stepOp o w s op = ({ w with connects := w.connects + 1 }, s) := by
  cases op <;>
    (simp only [stepOp, HBDRepo.deposits, HBDRepo.withdrawals, HBDRepo.totalDeposit,
       HBDRepo.totalWithdrawal, HBDRepo.totalInterest, HBDRepo.interestRate,
       HBDRepo.savingsDetails, HBDRepo.interestPayments];
     rw [query_conn_fail o w s _ _ e hp hc])

theorem stepOp_pool_none_attempts {ε : Type} (o : Oracle ε) (w : World) (s : RepoState)
    (hp : s.pool = none) (op : DomainOp) :
    (stepOp o w s op).1.connects = w.connects + 1 := by
  cases hc : o.connectErr w.connects with
  | some e => rw [stepOp_conn_fail o w s e hp hc op]
  | none => exact (stepOp_pool_none_ok o w s hp hc op).2.1

theorem runOps_pool_some {ε : Type} (o : Oracle ε) (ops : List DomainOp) :
    ∀ w s p, s.pool = some p →
      (runOps o w s ops).2 = s ∧ (runOps o w s ops).1.connects = w.connects ∧
      (runOps o w s ops).1.pools = w.pools := by
  induction ops with
  | nil => intro w s p _; exact ⟨rfl, rfl, rfl⟩
  | cons op rest ih =>
      intro w s p hp
      have hstep := stepOp_pool_some o w s p hp op
      have hr : runOps o w s (op :: rest) =
          runOps o (stepOp o w s op).1 (stepOp o w s op).2 rest := rfl
      obtain ⟨h1, h2, h3⟩ := ih (stepOp o w s op).1 (stepOp o w s op).2 p
        (by rw [hstep.1]; exact hp)
      exact ⟨by rw [hr, h1, hstep.1], by rw [hr, h2, hstep.2.1],
             by rw [hr, h3, hstep.2.2]⟩

theorem runOps_pools_le {ε : Type} (o : Oracle ε) (ops : List DomainOp) :
    ∀ w s, s.pool = none → (runOps o w s ops).1.pools ≤ w.pools + 1 := by
  induction ops with
  | nil => intro w s _; exact Nat.le_succ w.pools
  | cons op rest ih =>
      intro w s hp
      have hr : runOps o w s (op :: rest) =
          runOps o (stepOp o w s op).1 (stepOp o w s op).2 rest := rfl
      rw [hr]
      cases hc : o.connectErr w.connects with
      | some e =>
          rw [stepOp_conn_fail o w s e hp hc op]
          exact ih _ s hp
      | none =>
          have hstep := stepOp_pool_none_ok o w s hp hc op
          have hsome : (stepOp o w s op).2.pool = some w.pools := by rw [hstep.1]
          have := (runOps_pool_some o rest (stepOp o w s op).1 (stepOp o w s op).2
            w.pools hsome).2.2
          rw [this, hstep.2.2]

theorem mem_insertByTs (a r : Row) (l : List Row) :
    a ∈ insertByTs r l ↔ a = r ∨ a ∈ l := by
  induction l with
  | nil => simp [insertByTs]
  | cons x xs ih =>
      unfold insertByTs
      by_cases h : tsKey r ≤ tsKey x
      · simp [h]
      · simp [h, ih]
        tauto

theorem mem_sortByTs (a : Row) (l : List Row) : a ∈ sortByTs l ↔ a ∈ l := by
  induction l with
  | nil => simp [sortByTs]
  | cons x xs ih => simp [sortByTs, mem_insertByTs, ih]

theorem pgDepositsExec_symbol (db : List Row) (u : String) (r : Row)
    (hr : r ∈ pgDepositsExec db u) :
    lookupCol r "symbol" = some (SqlValue.vStr "HBD") := by
  rw [pgDepositsExec, mem_sortByTs] at hr
  have hb := (List.mem_filter.mp hr).2
  unfold pgDepositsWhere at hb
  have := (Bool.and_eq_true _ _).mp hb
  exact eq_of_beq this.2

/-- C1: Singleton invariant — for every sequence of `getInstance(cfg1)`,
`getInstance(cfg2)`, ... calls, the very first successful call constructs
the instance from its config, and every subsequent call returns that same
instance while ignoring the config it was passed.  (A call can only fail
by the constructor rejecting an absent config, so the calls before the
first successful one are exactly the ones passed no config.) -/
theorem singleton_invariant (pre post : List (Option PoolConfig)) (c : PoolConfig)
    (hpre : ∀ x ∈ pre, x = none) :
    runGetInstances none (pre ++ some c :: post) =
      (pre.map (fun _ => Except.error ConfigError.configurationError) ++
        Except.ok { poolConfig := c, pool := none } ::
        post.map (fun _ => Except.ok { poolConfig := c, pool := none }),
       some { poolConfig := c, pool := none }) := by
  induction pre with
  | nil =>
      simp [runGetInstances, HBDRepo.getInstance, HBDRepo.construct,
        runGetInstances_some]
  | cons x xs ih =>
      have hx : x = none := hpre x (List.mem_cons_self x xs)
      subst hx
      have hxs : ∀ y ∈ xs, y = none := fun y hy => hpre y (List.mem_cons_of_mem _ hy)
      simp [runGetInstances, HBDRepo.getInstance, HBDRepo.construct, ih hxs]

/-- Witness for C1: one failed call (no config), then a successful call
with `pcA`, then a call passing a different config `pcB` — the `pcA`
instance is kept and returned. -/
theorem singleton_invariant_witness :
    runGetInstances none [none, some pcA, some pcB] =
      ([Except.error ConfigError.configurationError,
        Except.ok { poolConfig := pcA, pool := none },
        Except.ok { poolConfig := pcA, pool := none }],
       some { poolConfig := pcA, pool := none }) := by
  have h := singleton_invariant [none] [some pcB] pcA (by intro x hx; simpa using hx)
  simpa using h

/-- C9: once an instance exists, `getInstance` returns it for any passed
config — in particular for an absent (`null`) config — without throwing:
the configuration-presence check lives only in the constructor. -/
theorem getInstance_ignores_config_after_init (r : RepoState) (cfg : Option PoolConfig) :
    HBDRepo.getInstance (some r) cfg = (some r, Except.ok r) := rfl

/-- C5 (counterexample): a present config object missing every required
connection field is accepted by `getInstance` with no instance present —
no `ConfigurationError` is raised, refuting the "or invalid" half of the
claim. -/
theorem getInstance_accepts_invalid_config :
    PoolConfig.hasRequiredConnectionFields invalidConfig = false ∧
    (HBDRepo.getInstance none (some invalidConfig)).2 ≠
      Except.error ConfigError.configurationError :=
  ⟨rfl, fun h => nomatch h⟩

/-- C5 (amended): `getInstance` fails with `ConfigurationError` exactly
when no instance exists and the passed config is absent; a present config
is accepted without any validation of its fields. -/
theorem getInstance_config_precondition :
    (HBDRepo.getInstance none none).2 = Except.error ConfigError.configurationError ∧
    (∀ c : PoolConfig, HBDRepo.getInstance none (some c) =
      (some { poolConfig := c, pool := none },
       Except.ok { poolConfig := c, pool := none })) :=
  ⟨rfl, fun _ => rfl⟩

/-- C2: Empty-result defaults — when the underlying query yields zero rows,
or a first row whose aggregate column is NULL, `totalDeposit`,
`totalWithdrawal` and `totalInterest` return the number 0 without raising,
and `savingsDetails` returns the empty mapping (never null/undefined). -/
theorem empty_result_defaults {ε : Type} (o : Oracle ε) (w : World) (s : RepoState)
    (p : Nat) (u : String) (rows : List Row)
    (hp : s.pool = some p) (hrows : o.execRes w.execs = Except.ok rows) :
    ((rows.head?.bind (fun r => lookupCol r "total_amount")).getD SqlValue.vNull =
        SqlValue.vNull →
      (HBDRepo.totalDeposit o w s u).2.2 = Except.ok (SqlValue.vNum 0) ∧
      (HBDRepo.totalWithdrawal o w s u).2.2 = Except.ok (SqlValue.vNum 0)) ∧
    ((rows.head?.bind (fun r => lookupCol r "total_interest")).getD SqlValue.vNull =
        SqlValue.vNull →
      (HBDRepo.totalInterest o w s u).2.2 = Except.ok (SqlValue.vNum 0)) ∧
    (rows = [] → (HBDRepo.savingsDetails o w s u).2.2 = Except.ok ([] : Row)) := by
  refine ⟨fun hnull => ⟨?_, ?_⟩, fun hnull => ?_, fun hnil => ?_⟩
  · simp only [HBDRepo.totalDeposit]
    rw [query_pool_some_ok o w s p _ _ rows hp hrows]
    simp [Except.map, scalarOrZero_of_null rows _ hnull]
  · simp only [HBDRepo.totalWithdrawal]
    rw [query_pool_some_ok o w s p _ _ rows hp hrows]
    simp [Except.map, scalarOrZero_of_null rows _ hnull]
  · simp only [HBDRepo.totalInterest]
    rw [query_pool_some_ok o w s p _ _ rows hp hrows]
    simp [Except.map, scalarOrZero_of_null rows _ hnull]
  · subst hnil
    simp only [HBDRepo.savingsDetails]
    rw [query_pool_some_ok o w s p _ _ [] hp hrows]
    simp [Except.map, firstRowOrEmpty]

/-- A driver whose executes all return zero rows. -/
def emptyOracle : Oracle Unit :=
  { connectErr := fun _ => none, execRes := fun _ => Except.ok [] }

/-- A connected instance holding `pcA` and pool 0. -/
def connectedRepoA : RepoState := { poolConfig := pcA, pool := some 0 }

/-- Witness for C2: a connected instance over a driver yielding zero rows
gives 0 for all three totals and the empty mapping for savingsDetails. -/
theorem empty_result_defaults_witness :
    (HBDRepo.totalDeposit emptyOracle World.init connectedRepoA "alice").2.2 =
        Except.ok (SqlValue.vNum 0) ∧
    (HBDRepo.totalWithdrawal emptyOracle World.init connectedRepoA "alice").2.2 =
        Except.ok (SqlValue.vNum 0) ∧
    (HBDRepo.totalInterest emptyOracle World.init connectedRepoA "alice").2.2 =
        Except.ok (SqlValue.vNum 0) ∧
    (HBDRepo.savingsDetails emptyOracle World.init connectedRepoA "alice").2.2 =
        Except.ok ([] : Row) := by
  have h := empty_result_defaults emptyOracle World.init connectedRepoA 0 "alice" []
    rfl rfl
  exact ⟨(h.1 rfl).1, (h.1 rfl).2, h.2.1 rfl, h.2.2 rfl⟩

/-- C3: Error narrowing on execution failure — whenever the driver's
execute step fails (with any driver error `e`), every domain operation
rejects with the generic `queryExecutionError`, which carries no driver
detail, rather than returning a partial or default value. -/
theorem exec_failure_rejects_generic {ε : Type} (o : Oracle ε) (w : World)
    (s : RepoState) (u : String) (e : ε)
    (hconn : s.pool = none → o.connectErr w.connects = none)
    (hexec : o.execRes w.execs = Except.error e) :
    (HBDRepo.deposits o w s u).2.2 = Except.error OpError.queryExecutionError ∧
    (HBDRepo.withdrawals o w s u).2.2 = Except.error OpError.queryExecutionError ∧
    (HBDRepo.totalDeposit o w s u).2.2 = Except.error OpError.queryExecutionError ∧
    (HBDRepo.totalWithdrawal o w s u).2.2 = Except.error OpError.queryExecutionError ∧
    (HBDRepo.totalInterest o w s u).2.2 = Except.error OpError.queryExecutionError ∧
    (HBDRepo.interestRate o w s).2.2 = Except.error OpError.queryExecutionError ∧
    (HBDRepo.savingsDetails o w s u).2.2 = Except.error OpError.queryExecutionError ∧
    (HBDRepo.interestPayments o w s u).2.2 = Except.error OpError.queryExecutionError := by
  have hq : ∀ q ps, (HBDRepo.query o w s q ps).2.2 =
      Except.error (OpError.queryExecutionError (ε := ε)) := by
    intro q ps
    cases hp : s.pool with
    | none => rw [query_pool_none_ok_err o w s q ps e hp (hconn hp) hexec]
    | some p => rw [query_pool_some_err o w s p q ps e hp hexec]
  refine ⟨hq _ _, hq _ _, ?_, ?_, ?_, ?_, ?_, hq _ _⟩ <;>
    simp only [HBDRepo.totalDeposit, HBDRepo.totalWithdrawal, HBDRepo.totalInterest,
      HBDRepo.interestRate, HBDRepo.savingsDetails] <;>
    rw [hq] <;> rfl

/-- A driver whose executes all throw a driver-specific error string. -/
def failOracle : Oracle String :=
  { connectErr := fun _ => none,
    execRes := fun _ => Except.error "syntax error near FROM" }

/-- A freshly constructed, not yet connected instance holding `pcA`. -/
def freshRepoA : RepoState := { poolConfig := pcA, pool := none }

/-- Witness for C3: with a driver stub whose execute throws, every domain
operation rejects with the generic query-execution error. -/
theorem exec_failure_rejects_generic_witness :
    (HBDRepo.deposits failOracle World.init freshRepoA "alice").2.2 =
        Except.error OpError.queryExecutionError ∧
    (HBDRepo.withdrawals failOracle World.init freshRepoA "alice").2.2 =
        Except.error OpError.queryExecutionError ∧
    (HBDRepo.totalDeposit failOracle World.init freshRepoA "alice").2.2 =
        Except.error OpError.queryExecutionError ∧
    (HBDRepo.totalWithdrawal failOracle World.init freshRepoA "alice").2.2 =
        Except.error OpError.queryExecutionError ∧
    (HBDRepo.totalInterest failOracle World.init freshRepoA "alice").2.2 =
        Except.error OpError.queryExecutionError ∧
    (HBDRepo.interestRate failOracle World.init freshRepoA).2.2 =
        Except.error OpError.queryExecutionError ∧
    (HBDRepo.savingsDetails failOracle World.init freshRepoA "alice").2.2 =
        Except.error OpError.queryExecutionError ∧
    (HBDRepo.interestPayments failOracle World.init freshRepoA "alice").2.2 =
        Except.error OpError.queryExecutionError :=
  exec_failure_rejects_generic failOracle World.init freshRepoA "alice"
    "syntax error near FROM" (fun _ => rfl) rfl

/-- C4: One-way connection lifecycle — across any sequence of domain
operations on a freshly constructed instance, at most one pool is ever
successfully created whatever the driver does; and with a driver whose
construction succeeds (the spec's mock driver), a nonempty sequence makes
exactly one construction attempt, creates exactly one pool on its first
operation, and every later operation reuses that same pool (`pool` never
returns to unset). -/
theorem connection_lifecycle_once {ε : Type} (o : Oracle ε)
    (ef : Nat → Except ε (List Row)) (ops : List DomainOp) (c : PoolConfig)
    (hne : ops ≠ []) :
    (runOps o World.init { poolConfig := c, pool := none } ops).1.pools ≤ 1 ∧
    (runOps (alwaysConnect ef) World.init { poolConfig := c, pool := none } ops).1.pools = 1 ∧
    (runOps (alwaysConnect ef) World.init { poolConfig := c, pool := none } ops).1.connects = 1 ∧
    (runOps (alwaysConnect ef) World.init { poolConfig := c, pool := none } ops).2.pool = some 0 := by
  constructor
  · exact runOps_pools_le o ops World.init _ rfl
  · cases ops with
    | nil => exact absurd rfl hne
    | cons op rest =>
        have hstep := stepOp_pool_none_ok (alwaysConnect ef) World.init
          { poolConfig := c, pool := none } rfl rfl op
        have hr : runOps (alwaysConnect ef) World.init { poolConfig := c, pool := none }
            (op :: rest) =
            runOps (alwaysConnect ef)
              (stepOp (alwaysConnect ef) World.init { poolConfig := c, pool := none } op).1
              (stepOp (alwaysConnect ef) World.init { poolConfig := c, pool := none } op).2
              rest := rfl
        have hsome : (stepOp (alwaysConnect ef) World.init
            { poolConfig := c, pool := none } op).2.pool = some 0 := by
          rw [hstep.1]
          rfl
        have hrun := runOps_pool_some (alwaysConnect ef) rest
          (stepOp (alwaysConnect ef) World.init { poolConfig := c, pool := none } op).1
          (stepOp (alwaysConnect ef) World.init { poolConfig := c, pool := none } op).2
          0 hsome
        refine ⟨?_, ?_, ?_⟩
        · rw [hr, hrun.2.2, hstep.2.2]
          rfl
        · rw [hr, hrun.2.1, hstep.2.1]
          rfl
        · rw [hr, hrun.1, hsome]

/-- Witness for C4: two operations in sequence over an always-succeeding
driver trigger exactly one pool construction, reused by the second. -/
theorem connection_lifecycle_once_witness :
    (runOps emptyOracle World.init { poolConfig := pcA, pool := none }
        [DomainOp.deposits "alice", DomainOp.totalInterest "alice"]).1.pools ≤ 1 ∧
    (runOps (alwaysConnect emptyOracle.execRes) World.init { poolConfig := pcA, pool := none }
        [DomainOp.deposits "alice", DomainOp.totalInterest "alice"]).1.pools = 1 ∧
    (runOps (alwaysConnect emptyOracle.execRes) World.init { poolConfig := pcA, pool := none }
        [DomainOp.deposits "alice", DomainOp.totalInterest "alice"]).1.connects = 1 ∧
    (runOps (alwaysConnect emptyOracle.execRes) World.init { poolConfig := pcA, pool := none }
        [DomainOp.deposits "alice", DomainOp.totalInterest "alice"]).2.pool = some 0 :=
  connection_lifecycle_once emptyOracle emptyOracle.execRes
    [DomainOp.deposits "alice", DomainOp.totalInterest "alice"] pcA (by decide)

/-- C6: Connection-failure semantics — when pool construction fails with a
driver error `e`, every domain operation surfaces that error as a
connection error (distinct from the generic query-execution error), makes
exactly one construction attempt (no retry, no execute), and leaves the
pool field unset, so any later operation attempts connection again. -/
theorem connect_failure_semantics {ε : Type} (o : Oracle ε) (w : World)
    (s : RepoState) (u : String) (e : ε)
    (hp : s.pool = none) (hc : o.connectErr w.connects = some e) :
    HBDRepo.deposits o w s u =
      ({ w with connects := w.connects + 1 }, s, Except.error (OpError.connectionError e)) ∧
    HBDRepo.withdrawals o w s u =
      ({ w with connects := w.connects + 1 }, s, Except.error (OpError.connectionError e)) ∧
    HBDRepo.totalDeposit o w s u =
      ({ w with connects := w.connects + 1 }, s, Except.error (OpError.connectionError e)) ∧
    HBDRepo.totalWithdrawal o w s u =
      ({ w with connects := w.connects + 1 }, s, Except.error (OpError.connectionError e)) ∧
    HBDRepo.totalInterest o w s u =
      ({ w with connects := w.connects + 1 }, s, Except.error (OpError.connectionError e)) ∧
    HBDRepo.interestRate o w s =
      ({ w with connects := w.connects + 1 }, s, Except.error (OpError.connectionError e)) ∧
    HBDRepo.savingsDetails o w s u =
      ({ w with connects := w.connects + 1 }, s, Except.error (OpError.connectionError e)) ∧
    HBDRepo.interestPayments o w s u =
      ({ w with connects := w.connects + 1 }, s, Except.error (OpError.connectionError e)) ∧
    OpError.connectionError e ≠ (OpError.queryExecutionError : OpError ε) ∧
    (∀ (w2 : World) (op : DomainOp), (stepOp o w2 s op).1.connects = w2.connects + 1) := by
  have hq := query_conn_fail o w s
  refine ⟨?_, ?_, ?_, ?_, ?_, ?_, ?_, ?_, ?_, ?_⟩ <;>
    first
      | exact fun w2 op => stepOp_pool_none_attempts o w2 s hp op
      | simp [HBDRepo.deposits, HBDRepo.withdrawals, HBDRepo.totalDeposit,
          HBDRepo.totalWithdrawal, HBDRepo.totalInterest, HBDRepo.interestRate,
          HBDRepo.savingsDetails, HBDRepo.interestPayments,
          hq _ _ e hp hc, Except.map]

/-- A driver whose pool construction always fails with a DNS error. -/
def badConnectOracle : Oracle String :=
  { connectErr := fun _ => some "getaddrinfo ENOTFOUND invalid_host",
    execRes := fun _ => Except.ok [] }

/-- Witness for C6: on a fresh instance over a driver whose construction
throws, `deposits` (as one representative of the conjunction, which the
applied theorem covers for all operations) rejects with the rethrown
connection error, attempts exactly one construction, and leaves the pool
unset. -/
theorem connect_failure_semantics_witness :
    HBDRepo.deposits badConnectOracle World.init freshRepoA "alice" =
      ({ World.init with connects := 1 }, freshRepoA,
       Except.error (OpError.connectionError "getaddrinfo ENOTFOUND invalid_host")) ∧
    HBDRepo.savingsDetails badConnectOracle World.init freshRepoA "alice" =
      ({ World.init with connects := 1 }, freshRepoA,
       Except.error (OpError.connectionError "getaddrinfo ENOTFOUND invalid_host")) ∧
    (∀ (w2 : World) (op : DomainOp),
      (stepOp badConnectOracle w2 freshRepoA op).1.connects = w2.connects + 1) := by
  have h := connect_failure_semantics badConnectOracle World.init freshRepoA "alice"
    "getaddrinfo ENOTFOUND invalid_host" rfl rfl
  exact ⟨h.1, h.2.2.2.2.2.2.1, h.2.2.2.2.2.2.2.2.2⟩

/-- C10: Query failure preserves connection state — when execute fails
after the pool exists, each operation throws the generic query error but
leaves the instance's pool field untouched (the state component returned
is `s` itself, still holding the same pool) and creates no pool and no
connection attempt; consequently any later operation on that state reuses
the pool without reconnecting. -/
theorem query_failure_preserves_pool {ε : Type} (o : Oracle ε) (w : World)
    (s : RepoState) (p : Nat) (u : String) (e : ε)
    (hp : s.pool = some p) (hexec : o.execRes w.execs = Except.error e) :
    HBDRepo.deposits o w s u =
      ({ w with execs := w.execs + 1,
                calls := w.calls ++ [(depositsQueryString, [SqlValue.vStr u])] }, s,
       Except.error OpError.queryExecutionError) ∧
    HBDRepo.withdrawals o w s u =
      ({ w with execs := w.execs + 1,
                calls := w.calls ++ [(withdrawalsQueryString, [SqlValue.vStr u])] }, s,
       Except.error OpError.queryExecutionError) ∧
    HBDRepo.totalDeposit o w s u =
      ({ w with execs := w.execs + 1,
                calls := w.calls ++ [(totalDepositQueryString, [SqlValue.vStr u])] }, s,
       Except.error OpError.queryExecutionError) ∧
    HBDRepo.totalWithdrawal o w s u =
      ({ w with execs := w.execs + 1,
                calls := w.calls ++ [(totalWithdrawalQueryString, [SqlValue.vStr u])] }, s,
       Except.error OpError.queryExecutionError) ∧
    HBDRepo.totalInterest o w s u =
      ({ w with execs := w.execs + 1,
                calls := w.calls ++ [(totalInterestQueryString, [SqlValue.vStr u])] }, s,
       Except.error OpError.queryExecutionError) ∧
    HBDRepo.interestRate o w s =
      ({ w with execs := w.execs + 1,
                calls := w.calls ++ [(interestRateQueryString, [])] }, s,
       Except.error OpError.queryExecutionError) ∧
    HBDRepo.savingsDetails o w s u =
      ({ w with execs := w.execs + 1,
                calls := w.calls ++ [(savingsDetailsQueryString, [SqlValue.vStr u])] }, s,
       Except.error OpError.queryExecutionError) ∧
    HBDRepo.interestPayments o w s u =
      ({ w with execs := w.execs + 1,
                calls := w.calls ++ [(interestPaymentsQueryString, [SqlValue.vStr u])] }, s,
       Except.error OpError.queryExecutionError) ∧
    (∀ (w2 : World) (op : DomainOp),
      (stepOp o w2 s op).2 = s ∧ (stepOp o w2 s op).1.connects = w2.connects ∧
      (stepOp o w2 s op).1.pools = w2.pools) := by
  refine ⟨?_, ?_, ?_, ?_, ?_, ?_, ?_, ?_,
    fun w2 op => stepOp_pool_some o w2 s p hp op⟩ <;>
    simp [HBDRepo.deposits, HBDRepo.withdrawals, HBDRepo.totalDeposit,
      HBDRepo.totalWithdrawal, HBDRepo.totalInterest, HBDRepo.interestRate,
      HBDRepo.savingsDetails, HBDRepo.interestPayments,
      query_pool_some_err o w s p _ _ e hp hexec, Except.map]

/-- Witness for C10: a connected instance over a driver whose execute
throws — `deposits` fails with the generic error yet the state keeps pool
0, and every further operation makes no connection attempt. -/
theorem query_failure_preserves_pool_witness :
    HBDRepo.deposits failOracle World.init connectedRepoA "alice" =
      ({ World.init with execs := 1,
                         calls := [(depositsQueryString, [SqlValue.vStr "alice"])] },
       connectedRepoA,
       Except.error OpError.queryExecutionError) ∧
    (∀ (w2 : World) (op : DomainOp),
      (stepOp failOracle w2 connectedRepoA op).2 = connectedRepoA ∧
      (stepOp failOracle w2 connectedRepoA op).1.connects = w2.connects ∧
      (stepOp failOracle w2 connectedRepoA op).1.pools = w2.pools) := by
  have h := query_failure_preserves_pool failOracle World.init connectedRepoA 0
    "alice" "syntax error near FROM" rfl rfl
  exact ⟨h.1, h.2.2.2.2.2.2.2.2⟩

theorem query_calls_pool_some {ε : Type} (o : Oracle ε) (w : World) (s : RepoState)
    (p : Nat) (q : String) (ps : List SqlValue) (hp : s.pool = some p) :
    (HBDRepo.query o w s q ps).1.calls = w.calls ++ [(q, ps)] := by
  cases he : o.execRes w.execs with
  | error e => rw [query_pool_some_err o w s p q ps e hp he]
  | ok rows => rw [query_pool_some_ok o w s p q ps rows hp he]

/-- C7: Parameter-binding noninterference — on a connected instance, (a)
the template components of the call log handed to the driver are identical
whichever account value `u` or `v` each operation is passed, and (b) each
operation hands the driver exactly its fixed template constant with the
caller's account value only as the single ordered bind parameter (and
`interestRate` binds nothing).  Account values therefore never reach the
template text. -/
theorem parameter_binding_noninterference {ε : Type} (o : Oracle ε) (w : World)
    (s : RepoState) (p : Nat) (u v : String) (hp : s.pool = some p) :
    ((HBDRepo.deposits o w s u).1.calls.map Prod.fst =
      (HBDRepo.deposits o w s v).1.calls.map Prod.fst) ∧
    ((HBDRepo.withdrawals o w s u).1.calls.map Prod.fst =
      (HBDRepo.withdrawals o w s v).1.calls.map Prod.fst) ∧
    ((HBDRepo.totalDeposit o w s u).1.calls.map Prod.fst =
      (HBDRepo.totalDeposit o w s v).1.calls.map Prod.fst) ∧
    ((HBDRepo.totalWithdrawal o w s u).1.calls.map Prod.fst =
      (HBDRepo.totalWithdrawal o w s v).1.calls.map Prod.fst) ∧
    ((HBDRepo.totalInterest o w s u).1.calls.map Prod.fst =
      (HBDRepo.totalInterest o w s v).1.calls.map Prod.fst) ∧
    ((HBDRepo.savingsDetails o w s u).1.calls.map Prod.fst =
      (HBDRepo.savingsDetails o w s v).1.calls.map Prod.fst) ∧
    ((HBDRepo.interestPayments o w s u).1.calls.map Prod.fst =
      (HBDRepo.interestPayments o w s v).1.calls.map Prod.fst) ∧
    ((HBDRepo.deposits o w s u).1.calls =
      w.calls ++ [(depositsQueryString, [SqlValue.vStr u])]) ∧
    ((HBDRepo.withdrawals o w s u).1.calls =
      w.calls ++ [(withdrawalsQueryString, [SqlValue.vStr u])]) ∧
    ((HBDRepo.totalDeposit o w s u).1.calls =
      w.calls ++ [(totalDepositQueryString, [SqlValue.vStr u])]) ∧
    ((HBDRepo.totalWithdrawal o w s u).1.calls =
      w.calls ++ [(totalWithdrawalQueryString, [SqlValue.vStr u])]) ∧
    ((HBDRepo.totalInterest o w s u).1.calls =
      w.calls ++ [(totalInterestQueryString, [SqlValue.vStr u])]) ∧
    ((HBDRepo.interestRate o w s).1.calls =
      w.calls ++ [(interestRateQueryString, [])]) ∧
    ((HBDRepo.savingsDetails o w s u).1.calls =
      w.calls ++ [(savingsDetailsQueryString, [SqlValue.vStr u])]) ∧
    ((HBDRepo.interestPayments o w s u).1.calls =
      w.calls ++ [(interestPaymentsQueryString, [SqlValue.vStr u])]) := by
  have hc := query_calls_pool_some o w s p
  refine ⟨?_, ?_, ?_, ?_, ?_, ?_, ?_, ?_, ?_, ?_, ?_, ?_, ?_, ?_, ?_⟩ <;>
    simp [HBDRepo.deposits, HBDRepo.withdrawals, HBDRepo.totalDeposit,
      HBDRepo.totalWithdrawal, HBDRepo.totalInterest, HBDRepo.interestRate,
      HBDRepo.savingsDetails, HBDRepo.interestPayments,
      fun q ps => hc q ps hp]

/-- Witness for C7: even an injection-shaped account value changes only
the bind-parameter component of the driver call, never the template. -/
theorem parameter_binding_noninterference_witness :
    ((HBDRepo.deposits emptyOracle World.init connectedRepoA "alice").1.calls.map Prod.fst =
      (HBDRepo.deposits emptyOracle World.init connectedRepoA
        "alice\x27; DROP TABLE hafsql.balances; --").1.calls.map Prod.fst) ∧
    ((HBDRepo.deposits emptyOracle World.init connectedRepoA "alice").1.calls =
      [(depositsQueryString, [SqlValue.vStr "alice"])]) ∧
    ((HBDRepo.interestRate emptyOracle World.init connectedRepoA).1.calls =
      [(interestRateQueryString, [])]) := by
  have h := parameter_binding_noninterference emptyOracle World.init connectedRepoA 0
    "alice" "alice\x27; DROP TABLE hafsql.balances; --" rfl
  exact ⟨h.1, h.2.2.2.2.2.2.2.1, h.2.2.2.2.2.2.2.2.2.2.2.2.1⟩

/-- The HBD row of `pgFixture`. -/
def pgHbdRow : Row :=
  [("from_account", SqlValue.vStr "alice"), ("to_account", SqlValue.vStr "bob"),
   ("amount", SqlValue.vNum 10), ("symbol", SqlValue.vStr "HBD"),
   ("timestamp", SqlValue.vNum 2)]

/-- C8 (counterexample): in the mssql dialect of `dist/hbd-repo.js`, the
`deposits` query applies no currency-symbol filter (its WHERE clause tests
only the accounts and `[type] = 'transfer_to_savings'`) and does not even
select a symbol column: on a table holding a HIVE savings transfer for
alice, `deposits("alice")` returns that non-HBD row, so the claim that
both dialects return only rows whose symbol equals HBD is false. -/
theorem mssql_deposits_returns_non_hbd_row :
    mssqlDepositsExec [hiveTransferRow] "alice" = [mssqlOutRow] ∧
    lookupCol hiveTransferRow "amount_symbol" = some (SqlValue.vStr "HIVE") ∧
    lookupCol mssqlOutRow "symbol" = none := by
  refine ⟨?_, rfl, rfl⟩
  decide

/-- C8 (amended): in the pg dialect (`src/index.ts`) every row produced by
the `deposits` query has `symbol = 'HBD'`, the filtering being performed by
the query's WHERE clause, and the facade returns the driver's row list
unchanged (no post-filtering); in the mssql dialect (`dist/hbd-repo.js`)
the query filters only by account and operation type, so non-HBD transfer
rows are returned. -/
theorem deposits_symbol_filter_dialects {ε : Type} (o : Oracle ε) (w : World)
    (s : RepoState) (p : Nat) (db : List Row) (u : String) (rows : List Row)
    (hp : s.pool = some p) (hexec : o.execRes w.execs = Except.ok rows) :
    (∀ r ∈ pgDepositsExec db u, lookupCol r "symbol" = some (SqlValue.vStr "HBD")) ∧
    ((HBDRepo.deposits o w s u).2.2 = Except.ok rows) ∧
    (mssqlDepositsExec [hiveTransferRow] "alice" = [mssqlOutRow] ∧
     lookupCol mssqlOutRow "symbol" = none) := by
  refine ⟨fun r hr => pgDepositsExec_symbol db u r hr, ?_, by decide, rfl⟩
  simp only [HBDRepo.deposits]
  rw [query_pool_some_ok o w s p _ _ rows hp hexec]

/-- Witness for C8 (amended): on a fixture with one HBD and one HIVE
transfer, the pg query keeps only the HBD row (whose symbol is HBD), and a
connected facade passes the driver rows through unchanged. -/
theorem deposits_symbol_filter_dialects_witness :
    pgDepositsExec pgFixture "alice" = [pgHbdRow] ∧
    lookupCol pgHbdRow "symbol" = some (SqlValue.vStr "HBD") ∧
    (HBDRepo.deposits emptyOracle World.init connectedRepoA "alice").2.2 =
      Except.ok [] := by
  have h := deposits_symbol_filter_dialects emptyOracle World.init connectedRepoA 0
    pgFixture "alice" [] rfl rfl
  exact ⟨by decide, h.1 pgHbdRow (by decide), h.2.1⟩
